import Mathlib

/-!
Verification of the `tracing-telegram` log-forwarding layer.

The definitions below are a shallow embedding of the Rust sources
(`src/escape_utils.rs`, `src/telegram_layer.rs`, `src/lib.rs`).
Rust `String` / `&str` values are modelled as `List Char`; Rust
`Option` as `Option`; the tokio bounded mpsc channel as an explicit
state-transition model; the spawned delivery worker as a pure function
from the queued requests, the recipient list and a transport oracle to
the trace of actions it performs.
-/

namespace TracingTelegram

/-! ### Escaper (src/escape_utils.rs) -/

/-- The reserved character set of `escape_markdown_v2`, from the source
string literal (braces written with hex escapes). -/
def chars_to_escape : List Char := String.toList "_*[]()~`>#+-=|\x7b\x7d.!"

/-- Embeds `escape_markdown_v2`: walk the characters, pushing a backslash
before any character contained in `chars_to_escape`, then the character. -/
def escape_markdown_v2 : List Char → List Char
  | [] => []
  | c :: rest =>
    if chars_to_escape.contains c then '\\' :: c :: escape_markdown_v2 rest
    else c :: escape_markdown_v2 rest

/-! ### Substring search: Rust `str::contains` on a string pattern. -/

/-- Embeds Rust `haystack.contains(pattern)` (substring search). -/
def containsSub (hay pat : List Char) : Bool :=
  pat.isPrefixOf hay ||
    match hay with
    | [] => false
    | _ :: rest => containsSub rest pat

/-! ### Rust `str::replace` (all occurrences, left to right).

`replaceAllGo` carries fuel; one unit of fuel is spent per character of
the remaining haystack, so fuel `s.length` is always enough (a match
consumes `pat.length ≥ 1` characters, a non-match consumes one). -/

def replaceAllGo : Nat → List Char → List Char → List Char → List Char
  | 0, s, _, _ => s
  | _ + 1, [], _, _ => []
  | fuel + 1, c :: rest, pat, rep =>
    if pat.isPrefixOf (c :: rest) && !pat.isEmpty then
      rep ++ replaceAllGo fuel ((c :: rest).drop pat.length) pat rep
    else
      c :: replaceAllGo fuel rest pat rep

/-- Embeds Rust `s.replace(pat, rep)`. -/
def replaceAll (s pat rep : List Char) : List Char :=
  replaceAllGo s.length s pat rep

/-! ### Levels, emoji table, parse mode (src/telegram_layer.rs) -/

/-- Embeds `tracing::Level` (only the five verbosity levels). -/
inductive Level where
  | ERROR | WARN | INFO | DEBUG | TRACE
deriving DecidableEq

/-- Embeds the `Display` rendering of `tracing::Level`. -/
def Level.display : Level → List Char
  | .ERROR => String.toList "ERROR"
  | .WARN => String.toList "WARN"
  | .INFO => String.toList "INFO"
  | .DEBUG => String.toList "DEBUG"
  | .TRACE => String.toList "TRACE"

/-- Embeds the `LEVEL_EMOJIS` lazy-static map: `HashMap::get` returns an
`Option`, populated for all five levels. -/
def LEVEL_EMOJIS : Level → Option (List Char)
  | .ERROR => some (String.toList "❌")
  | .WARN => some (String.toList "⚠️")
  | .INFO => some (String.toList "ℹ️")
  | .DEBUG => some (String.toList "🔍")
  | .TRACE => some (String.toList "📝")

/-- Embeds `teloxide::types::ParseMode` (only the variant the code uses). -/
inductive ParseMode where
  | MarkdownV2
deriving DecidableEq

/-- A queued delivery request: rendered text plus optional parse mode. -/
def DeliveryReq : Type := List Char × Option ParseMode

instance : DecidableEq DeliveryReq := by
  unfold DeliveryReq
  infer_instance

/-! ### The bounded mpsc channel (tokio `mpsc::channel(100)`), modelled as
an explicit state machine: a fixed capacity and a FIFO buffer. -/

/-- State of a bounded FIFO channel. -/
structure Channel (α : Type) where
  cap : Nat
  buf : List α
deriving DecidableEq

/-- Result of a producer-side send on a bounded channel: either the
request is appended, or the producer suspends (awaits); there is no
dropping and no error outcome. -/
inductive SendAttempt (α : Type) where
  | enqueued (ch : Channel α)
  | suspended
deriving DecidableEq

/-- Fresh bounded channel of the given capacity (`mpsc::channel(cap)`). -/
def mpsc_channel (α : Type) (cap : Nat) : Channel α := ⟨cap, []⟩

/-- One producer step: append when below capacity, suspend when full. -/
def Channel.trySend {α : Type} (ch : Channel α) (x : α) : SendAttempt α :=
  if ch.buf.length < ch.cap then SendAttempt.enqueued ⟨ch.cap, ch.buf ++ [x]⟩
  else SendAttempt.suspended

/-- One consumer step: take the oldest element, if any. -/
def Channel.recvNow {α : Type} (ch : Channel α) : Option (α × Channel α) :=
  match ch.buf with
  | [] => none
  | x :: rest => some (x, ⟨ch.cap, rest⟩)

/-! ### Bot, sender, layer, builder (src/telegram_layer.rs) -/

/-- Embeds `teloxide::Bot` as an opaque token holder. -/
structure Bot where
  token : List Char

/-- Embeds `Bot::new`. -/
def Bot.new (token : List Char) : Bot := ⟨token⟩

/-- Embeds `TelegramSender`: it owns the producer side of the channel
created in `TelegramSender::new`. -/
structure TelegramSender where
  queue : Channel DeliveryReq

/-- Embeds `TelegramSender::new`: allocates `mpsc::channel(100)` (the
spawned worker loop is modelled separately by `workerRun`). -/
def TelegramSender.new (_bot : Bot) (_chat_ids : List Int) : TelegramSender :=
  { queue := mpsc_channel DeliveryReq 100 }

/-- Embeds `TelegramFormat`. -/
inductive TelegramFormat where
  | Text
  | Markdown
  | Json
  | Template (tpl : List Char)

/-- Embeds `TelegramLayer`. -/
structure TelegramLayer where
  sender : TelegramSender
  format : TelegramFormat
  tag : List (List Char)
  unknown : List Char

/-- Embeds `TelegramLayerBuilder` (all fields optional, `Default`). -/
structure TelegramLayerBuilder where
  bot : Option Bot
  chat_ids : Option (List Int)
  format : Option TelegramFormat
  tag : Option (List (List Char))
  unknown : Option (List Char)

/-- Embeds `TelegramLayer::builder()`: the `Default` builder. -/
def TelegramLayer.builder : TelegramLayerBuilder :=
  ⟨none, none, none, none, none⟩

/-- Outcome of `TelegramLayerBuilder::build`: either a layer, or a panic
raised by `Option::expect` on a missing required field. -/
inductive BuildOutcome where
  | ok (layer : TelegramLayer)
  | panicked (msg : List Char)

/-- Embeds `TelegramLayerBuilder::build`: `expect` on `bot` and
`chat_ids` (panic on `None`), defaults for the remaining fields. -/
def TelegramLayerBuilder.build (b : TelegramLayerBuilder) : BuildOutcome :=
  match b.bot with
  | none => BuildOutcome.panicked (String.toList "Bot must be set")
  | some bot =>
    match b.chat_ids with
    | none => BuildOutcome.panicked (String.toList "chat_id must be set")
    | some chat_ids =>
      BuildOutcome.ok
        { sender := TelegramSender.new bot chat_ids
          format := b.format.getD TelegramFormat.Text
          tag := b.tag.getD []
          unknown := b.unknown.getD (String.toList "Unknown") }

/-! ### Event metadata and the event sink (`on_event`) -/

/-- The metadata the sink reads from a `tracing::Event`: optional line,
file and module path, and the level. -/
structure EventMeta where
  line : Option Nat
  file : Option (List Char)
  module_path : Option (List Char)
  level : Level

/-- Decimal rendering of a number, as Rust `format!` does. -/
def natChars (n : Nat) : List Char := (Nat.repr n).toList

/-- Embeds the `TelegramFormat::Template` branch: the chain of seven
`str::replace` calls, in source order. -/
def renderTemplate (tpl emoji now output levelStr module file : List Char)
    (line : Nat) : List Char :=
  replaceAll
    (replaceAll
      (replaceAll
        (replaceAll
          (replaceAll
            (replaceAll
              (replaceAll tpl (String.toList "{emoji}") emoji)
              (String.toList "{time}") now)
            (String.toList "{msg}") output)
          (String.toList "{level}") levelStr)
        (String.toList "{module}") module)
      (String.toList "{file}") file)
    (String.toList "{line}") (natChars line)

/-- Embeds the `TelegramFormat::Markdown` format string
`"```\n{emoji} [{now}] {module}:{line} {file} {escaped} [{level}]\n```"`. -/
def mdRender (emoji now module : List Char) (line : Nat)
    (file escaped levelStr : List Char) : List Char :=
  String.toList "```\n" ++ emoji ++ String.toList " [" ++ now ++
    String.toList "] " ++ module ++ String.toList ":" ++ natChars line ++
    String.toList " " ++ file ++ String.toList " " ++ escaped ++
    String.toList " [" ++ levelStr ++ String.toList "]\n```"

/-- Embeds the `TelegramFormat::Json` raw format string
`"``` {"time": "..", "emoji": "..", "msg": "..", "level": "..",
"module": "..", "file": "..", "line": .. } ```"`. -/
def jsonRender (now emoji output levelStr module file : List Char)
    (line : Nat) : List Char :=
  String.toList "``` \x7b\"time\": \"" ++ now ++
    String.toList "\", \"emoji\": \"" ++ emoji ++
    String.toList "\", \"msg\": \"" ++ output ++
    String.toList "\", \"level\": \"" ++ levelStr ++
    String.toList "\", \"module\": \"" ++ module ++
    String.toList "\", \"file\": \"" ++ file ++
    String.toList "\", \"line\": " ++ natChars line ++
    String.toList " \x7d ```"

/-- Embeds the tag-admission logic of `on_event`: when the configured
tag list is non-empty the message must contain one of the tags,
otherwise every message is admitted. -/
def tagAdmits (tags : List (List Char)) (output : List Char) : Bool :=
  if tags.length > 0 then tags.any fun t => containsSub output t
  else true

/-- Embeds the `match self.format` block of `on_event`: maps the layer
configuration, the extracted message, the event metadata and the
formatted local time to the rendered text and optional parse mode. -/
def formatEvent (layer : TelegramLayer) (output : List Char)
    (meta : EventMeta) (now : List Char) : List Char × Option ParseMode :=
  let emoji := (LEVEL_EMOJIS meta.level).getD layer.unknown
  match layer.format with
  | TelegramFormat.Text =>
    (emoji ++ String.toList " [" ++ now ++ String.toList "] " ++ output, none)
  | TelegramFormat.Markdown =>
    let escaped_output := escape_markdown_v2 output
    let file := replaceAll (meta.file.getD layer.unknown)
      (String.toList "\\") (String.toList "/")
    let line := meta.line.getD 0
    let module := meta.module_path.getD layer.unknown
    (mdRender emoji now module line file escaped_output meta.level.display,
      some ParseMode.MarkdownV2)
  | TelegramFormat.Json =>
    (jsonRender now emoji output meta.level.display
        (meta.module_path.getD layer.unknown)
        (replaceAll (meta.file.getD layer.unknown)
          (String.toList "\\") (String.toList "/"))
        (meta.line.getD 0),
      some ParseMode.MarkdownV2)
  | TelegramFormat.Template tpl =>
    (renderTemplate tpl emoji now output meta.level.display
        (meta.module_path.getD layer.unknown)
        (replaceAll (meta.file.getD layer.unknown)
          (String.toList "\\") (String.toList "/"))
        (meta.line.getD 0),
      none)

/-- Embeds `TelegramLayer::on_event`: `output` is the message text the
`MessageVisitor` extracted. Returns `none` when the handler returns
without spawning a send (empty message, or tag filter rejects), and
`some request` when it hands a request to the sender. -/
def on_event (layer : TelegramLayer) (output : List Char)
    (meta : EventMeta) (now : List Char) :
    Option (List Char × Option ParseMode) :=
  if output.isEmpty then none
  else if tagAdmits layer.tag output then
    some (formatEvent layer output meta now)
  else none

/-- The requests the handler enqueues for one event (empty or a
singleton). -/
def enqueuedRequests (layer : TelegramLayer) (output : List Char)
    (meta : EventMeta) (now : List Char) : List (List Char × Option ParseMode) :=
  (on_event layer output meta now).toList

/-! ### The delivery worker (the `tokio::spawn` loop in
`TelegramSender::new`), modelled as the trace of actions it performs
against a transport oracle. -/

/-- One observable action of the delivery worker: a transport send
attempt (with its outcome) or a sleep of a number of seconds. -/
inductive WAction where
  | send (msg : List Char) (pm : Option ParseMode) (chat : Int) (ok : Bool)
  | sleep (secs : Nat)
deriving DecidableEq

/-- Embeds the inner `for chat_id in chat_ids` loop: one send attempt
per recipient; a failed attempt is followed by `sleep(60)` and the loop
moves on to the next recipient. -/
def processChats (transport : List Char → Option ParseMode → Int → Bool)
    (msg : List Char) (pm : Option ParseMode) : List Int → List WAction
  | [] => []
  | c :: cs =>
    (if transport msg pm c then [WAction.send msg pm c true]
     else [WAction.send msg pm c false, WAction.sleep 60]) ++
      processChats transport msg pm cs

/-- Embeds the worker loop `while let Some((msg, parse_mode)) = rx.recv()`
over a queue of requests, producing the full action trace. -/
def workerRun (transport : List Char → Option ParseMode → Int → Bool)
    (chats : List Int) : List DeliveryReq → List WAction
  | [] => []
  | r :: q => processChats transport r.1 r.2 chats ++ workerRun transport chats q

/-- The sequence of send attempts in a trace, as (message, parse mode,
recipient) triples in order. -/
def sendsOf : List WAction → List (List Char × Option ParseMode × Int)
  | [] => []
  | WAction.send m pm c _ :: rest => (m, pm, c) :: sendsOf rest
  | WAction.sleep _ :: rest => sendsOf rest

/-- True when the trace starts with a 60-second sleep. -/
def startsWithSleep60 : List WAction → Bool
  | WAction.sleep s :: _ => s == 60
  | _ => false

/-- Checks that every failed send in a trace is immediately followed by
a 60-second sleep. -/
def failuresSleep : List WAction → Bool
  | [] => true
  | WAction.send _ _ _ ok :: rest =>
    if ok then failuresSleep rest
    else startsWithSleep60 rest && failuresSleep rest
  | WAction.sleep _ :: rest => failuresSleep rest

/-- Checks that a trace does not end in a failed send (helper for
composing trace segments). -/
def noTrailFail : List WAction → Bool
  | [] => true
  | WAction.send _ _ _ ok :: rest =>
    if ok then noTrailFail rest else !rest.isEmpty && noTrailFail rest
  | WAction.sleep _ :: rest => noTrailFail rest

/-! ## Helper lemmas -/

/-- `containsSub` decides the substring (infix) relation. -/
theorem containsSub_iff (hay pat : List Char) :
    containsSub hay pat = true ↔ pat <:+: hay := by
  induction hay with
  | nil =>
    rw [containsSub]
    simp [List.isPrefixOf_iff_prefix]
  | cons c rest ih =>
    rw [containsSub]
    simp only [Bool.or_eq_true, List.isPrefixOf_iff_prefix, ih]
    exact (List.infix_cons_iff).symm

/-- The number of reserved characters in a string. -/
def countRes (s : List Char) : Nat :=
  s.countP fun c => chars_to_escape.contains c

/-- Escaping adds one character per reserved character. -/
theorem length_escape (s : List Char) :
    (escape_markdown_v2 s).length = s.length + countRes s := by
  induction s with
  | nil => rfl
  | cons c rest ih =>
    rw [escape_markdown_v2]
    by_cases h : c ∈ chars_to_escape <;>
      simp [h, ih, countRes, List.countP_cons] <;> omega

/-- The backslash is not itself a reserved character. -/
theorem backslash_not_reserved : chars_to_escape.contains '\\' = false := by
  decide

/-- Escaping preserves the number of reserved characters. -/
theorem countRes_escape (s : List Char) :
    countRes (escape_markdown_v2 s) = countRes s := by
  induction s with
  | nil => rfl
  | cons c rest ih =>
    rw [escape_markdown_v2]
    have hbs : '\\' ∉ chars_to_escape := by decide
    simp only [countRes] at ih ⊢
    by_cases h : c ∈ chars_to_escape
    · simpa [h, List.countP_cons, hbs] using ih
    · simpa [h, List.countP_cons, hbs] using ih

/-- Escaping is the identity on strings without reserved characters. -/
theorem escape_id_of_clean (s : List Char)
    (h : ∀ c ∈ s, chars_to_escape.contains c = false) :
    escape_markdown_v2 s = s := by
  induction s with
  | nil => rfl
  | cons c rest ih =>
    have h0 : c ∉ chars_to_escape := by
      simpa using h c (List.mem_cons_self c rest)
    rw [escape_markdown_v2, if_neg (by simpa using h0)]
    rw [ih fun x hx => h x (List.mem_cons_of_mem _ hx)]

/-! ## Claims -/

/-- The escaper as the spec words it: each reserved character is
backslash-prefixed, every other character passes through, in order. -/
def escape_by_spec (s : List Char) : List Char :=
  s.flatMap fun c =>
    if chars_to_escape.contains c then ['\\', c] else [c]

/-- C2: for every input, `escape_markdown_v2` yields the input with
exactly one backslash inserted immediately before each occurrence of a
character of the reserved set `_ * [ ] ( ) ~ (backtick) > # + - = | (braces) . !`,
and every other character unchanged, in order. -/
theorem escape_markdown_v2_spec (s : List Char) :
    escape_markdown_v2 s = escape_by_spec s := by
  induction s with
  | nil => rfl
  | cons c rest ih =>
    rw [escape_markdown_v2, escape_by_spec, List.flatMap_cons]
    by_cases h : c ∈ chars_to_escape <;> simp [h, ih, escape_by_spec]

/-- C3: the tag filter admits a message iff the configured tag list is
empty or some configured tag occurs as a (case-sensitive) substring of
the message; in particular the empty tag list admits every message,
including the empty one. -/
theorem tagAdmits_characterization (tags : List (List Char)) (msg : List Char) :
    (tagAdmits tags msg = true ↔ tags = [] ∨ ∃ t ∈ tags, t <:+: msg) ∧
    tagAdmits [] msg = true := by
  refine ⟨?_, by simp [tagAdmits]⟩
  cases tags with
  | nil => simp [tagAdmits]
  | cons t ts =>
    simp [tagAdmits, List.any_eq_true, containsSub_iff]

/-- C7: escaping is not idempotent on any input containing a reserved
character (re-escaping yields a strictly different string), and is the
identity on inputs with no reserved character. -/
theorem escape_not_idempotent (s : List Char) :
    ((∃ c ∈ s, chars_to_escape.contains c = true) →
      escape_markdown_v2 (escape_markdown_v2 s) ≠ escape_markdown_v2 s) ∧
    ((∀ c ∈ s, chars_to_escape.contains c = false) →
      escape_markdown_v2 s = s) := by
  constructor
  · intro h heq
    have hl := congrArg List.length heq
    rw [length_escape (escape_markdown_v2 s), countRes_escape] at hl
    have hpos : 0 < countRes s := by
      have := List.countP_pos_iff.mpr h
      exact this
    omega
  · exact escape_id_of_clean s

/-- C7 witness: re-escaping a string containing the reserved dot changes
it; escaping a clean string does not. -/
theorem escape_not_idempotent_witness :
    escape_markdown_v2 (escape_markdown_v2 ['.']) ≠ escape_markdown_v2 ['.'] ∧
    escape_markdown_v2 ['a'] = ['a'] :=
  ⟨(escape_not_idempotent ['.']).1 (by decide),
   (escape_not_idempotent ['a']).2 (by decide)⟩

/-- C9: an event whose extracted message is empty is dropped before the
tag filter and the formatter run: `on_event` returns without building a
request, for every layer configuration (any tag list, any format), and
nothing is enqueued. -/
theorem empty_message_dropped (layer : TelegramLayer) (meta : EventMeta)
    (now : List Char) :
    on_event layer [] meta now = none ∧
    enqueuedRequests layer [] meta now = [] := by
  constructor <;> simp [on_event, enqueuedRequests]

/-! ## Worker-trace lemmas (for the failure-handling claim) -/

/-- `sendsOf` distributes over trace concatenation. -/
theorem sendsOf_append (a b : List WAction) :
    sendsOf (a ++ b) = sendsOf a ++ sendsOf b := by
  induction a with
  | nil => rfl
  | cons x rest ih =>
    cases x with
    | send m pm c ok => simp [sendsOf, ih]
    | sleep s => simp [sendsOf, ih]

/-- The send attempts of one dequeued message are exactly one per
recipient, in recipient order, whatever the transport outcomes are. -/
theorem sendsOf_processChats (t : List Char → Option ParseMode → Int → Bool)
    (m : List Char) (pm : Option ParseMode) (chats : List Int) :
    sendsOf (processChats t m pm chats) = chats.map fun c => (m, pm, c) := by
  induction chats with
  | nil => rfl
  | cons c cs ih =>
    rw [processChats]
    by_cases h : t m pm c <;> simp [h, sendsOf_append, sendsOf, ih]

/-- Every failed send inside one message's recipient loop is immediately
followed by a 60-second sleep. -/
theorem failuresSleep_processChats
    (t : List Char → Option ParseMode → Int → Bool)
    (m : List Char) (pm : Option ParseMode) (chats : List Int) :
    failuresSleep (processChats t m pm chats) = true := by
  induction chats with
  | nil => rfl
  | cons c cs ih =>
    rw [processChats]
    by_cases h : t m pm c <;>
      simp [h, failuresSleep, startsWithSleep60, ih]

/-- One message's recipient loop never ends in a failed send (the sleep
always follows). -/
theorem noTrailFail_processChats
    (t : List Char → Option ParseMode → Int → Bool)
    (m : List Char) (pm : Option ParseMode) (chats : List Int) :
    noTrailFail (processChats t m pm chats) = true := by
  induction chats with
  | nil => rfl
  | cons c cs ih =>
    rw [processChats]
    by_cases h : t m pm c <;> simp [h, noTrailFail, ih]

/-- `failuresSleep` composes over concatenation when the left trace does
not end in a failed send. -/
theorem failuresSleep_append {a b : List WAction}
    (ha : failuresSleep a = true) (hna : noTrailFail a = true)
    (hb : failuresSleep b = true) : failuresSleep (a ++ b) = true := by
  induction a with
  | nil => simpa using hb
  | cons x rest ih =>
    cases x with
    | sleep s =>
      rw [List.cons_append, failuresSleep]
      exact ih (by simpa [failuresSleep] using ha)
        (by simpa [noTrailFail] using hna)
    | send m pm c ok =>
      cases ok with
      | true =>
        rw [List.cons_append, failuresSleep, if_pos rfl]
        exact ih (by simpa [failuresSleep] using ha)
          (by simpa [noTrailFail] using hna)
      | false =>
        simp only [failuresSleep, Bool.false_eq_true, if_false,
          Bool.and_eq_true] at ha
        simp only [noTrailFail, Bool.false_eq_true, if_false,
          Bool.and_eq_true] at hna
        obtain ⟨hs, ha'⟩ := ha
        obtain ⟨hne, hna'⟩ := hna
        have hsw : startsWithSleep60 (rest ++ b) = true := by
          cases rest with
          | nil => simp at hne
          | cons y rs =>
            cases y with
            | sleep s => simpa [startsWithSleep60] using hs
            | send m' pm' c' ok' => simp [startsWithSleep60] at hs
        rw [List.cons_append, failuresSleep]
        simp only [Bool.false_eq_true, if_false, hsw, Bool.true_and]
        exact ih ha' hna'

/-- C1: for every transport behaviour, recipient list and queue, the
delivery worker attempts each dequeued (message, recipient) pair exactly
once, in FIFO order — the send-attempt sequence does not depend on the
transport outcomes at all, so a failed send is never re-sent — and every
failed attempt is immediately followed by the fixed 60-second sleep
before the worker continues. -/
theorem worker_no_resend_fixed_delay
    (transport : List Char → Option ParseMode → Int → Bool)
    (chats : List Int) (queue : List DeliveryReq) :
    sendsOf (workerRun transport chats queue) =
      queue.flatMap (fun r => chats.map fun c => (r.1, r.2, c)) ∧
    failuresSleep (workerRun transport chats queue) = true := by
  constructor
  · induction queue with
    | nil => rfl
    | cons r q ih =>
      rw [workerRun, sendsOf_append, sendsOf_processChats, ih,
        List.flatMap_cons]
  · induction queue with
    | nil => rfl
    | cons r q ih =>
      rw [workerRun]
      exact failuresSleep_append
        (failuresSleep_processChats transport r.1 r.2 chats)
        (noTrailFail_processChats transport r.1 r.2 chats) ih

/-! ## Builder validation (C4) -/

/-- Discriminator: did `build` return a layer? -/
def BuildOutcome.isOk : BuildOutcome → Bool
  | BuildOutcome.ok _ => true
  | BuildOutcome.panicked _ => false

/-- C4 counterexample: building the default configuration (transport
handle and recipient list unset) panics via `expect` with the message
"Bot must be set" — the failure is a panic, not a reportable
`ConfigurationError` value returned to the caller. -/
theorem build_default_panics :
    TelegramLayer.builder.build =
      BuildOutcome.panicked (String.toList "Bot must be set") := rfl

/-- C4 amended: building with the transport handle or the recipient list
unset fails via `Option::expect` (a panic carrying a fixed diagnostic
message) and never returns a layer with a silently substituted default
for the missing required field. -/
theorem build_missing_required_panics (b : TelegramLayerBuilder)
    (h : b.bot = none ∨ b.chat_ids = none) :
    (b.build = BuildOutcome.panicked (String.toList "Bot must be set") ∨
      b.build = BuildOutcome.panicked (String.toList "chat_id must be set")) ∧
    b.build.isOk = false := by
  cases hb : b.bot with
  | none =>
    constructor
    · exact Or.inl (by rw [TelegramLayerBuilder.build, hb])
    · rw [TelegramLayerBuilder.build, hb]
      rfl
  | some bot =>
    cases h with
    | inl h1 => rw [h1] at hb; cases hb
    | inr h2 =>
      constructor
      · exact Or.inr (by rw [TelegramLayerBuilder.build, hb, h2])
      · rw [TelegramLayerBuilder.build, hb, h2]
        rfl

/-- C4 witness: the default builder has no bot set and building it
panics rather than returning a layer. -/
theorem build_missing_required_panics_witness :
    (TelegramLayer.builder.bot = none ∨
      TelegramLayer.builder.chat_ids = none) ∧
    (TelegramLayer.builder.build =
        BuildOutcome.panicked (String.toList "Bot must be set") ∨
      TelegramLayer.builder.build =
        BuildOutcome.panicked (String.toList "chat_id must be set")) ∧
    TelegramLayer.builder.build.isOk = false :=
  ⟨Or.inl rfl, build_missing_required_panics TelegramLayer.builder (Or.inl rfl)⟩

/-! ## Queue capacity and backpressure (C8) -/

/-- C8: the sender's delivery queue is created by `TelegramSender::new`
as a bounded FIFO channel of fixed capacity 100, initially empty;
a producer step on a full channel suspends the producer (never drops the
request, never errors); a producer step below capacity appends at the
tail with the capacity unchanged; a consumer step takes the head with
the capacity unchanged. -/
theorem queue_bounded_capacity_100 (bot : Bot) (ids : List Int)
    (x : DeliveryReq) (ch : Channel DeliveryReq) :
    (TelegramSender.new bot ids).queue.cap = 100 ∧
    (TelegramSender.new bot ids).queue.buf = [] ∧
    (¬ ch.buf.length < ch.cap → ch.trySend x = SendAttempt.suspended) ∧
    (ch.buf.length < ch.cap →
      ch.trySend x = SendAttempt.enqueued ⟨ch.cap, ch.buf ++ [x]⟩) ∧
    (∀ y rest, ch.buf = y :: rest → ch.recvNow = some (y, ⟨ch.cap, rest⟩)) := by
  refine ⟨rfl, rfl, ?_, ?_, ?_⟩
  · intro h
    rw [Channel.trySend, if_neg h]
  · intro h
    rw [Channel.trySend, if_pos h]
  · intro y rest h
    obtain ⟨cap, buf⟩ := ch
    simp only at h
    rw [h, Channel.recvNow]

/-- C8 witness: with 100 requests already queued a further enqueue
suspends; below capacity it appends; a consumer step takes the head. -/
theorem queue_bounded_capacity_100_witness :
    Channel.trySend ⟨100, List.replicate 100 ((String.toList "m", none) : DeliveryReq)⟩
        ((String.toList "m", none) : DeliveryReq) = SendAttempt.suspended ∧
    Channel.trySend ⟨100, ([] : List DeliveryReq)⟩
        ((String.toList "m", none) : DeliveryReq) =
      SendAttempt.enqueued ⟨100, [(String.toList "m", none)]⟩ ∧
    Channel.recvNow ⟨100, [((String.toList "m", none) : DeliveryReq)]⟩ =
      some ((String.toList "m", none), ⟨100, []⟩) :=
  ⟨(queue_bounded_capacity_100 (Bot.new []) [] (String.toList "m", none)
      ⟨100, List.replicate 100 (String.toList "m", none)⟩).2.2.1
    (by simp),
   (queue_bounded_capacity_100 (Bot.new []) [] (String.toList "m", none)
      ⟨100, []⟩).2.2.2.1 (by simp),
   (queue_bounded_capacity_100 (Bot.new []) [] (String.toList "m", none)
      ⟨100, [(String.toList "m", none)]⟩).2.2.2.2
    (String.toList "m", none) [] rfl⟩

/-! ## Template mode (C5) -/

/-- The seven recognized template placeholder tokens. -/
def templateTokens : List (List Char) :=
  [String.toList "{emoji}", String.toList "{time}", String.toList "{msg}",
   String.toList "{level}", String.toList "{module}", String.toList "{file}",
   String.toList "{line}"]

/-- `replaceAllGo` leaves a string alone when the (non-empty) pattern
does not occur in it. -/
theorem replaceAllGo_no_occurrence (pat rep : List Char) :
    ∀ (fuel : Nat) (s : List Char), containsSub s pat = false →
      replaceAllGo fuel s pat rep = s := by
  intro fuel
  induction fuel with
  | zero => intro s _; rfl
  | succ n ih =>
    intro s hs
    cases s with
    | nil => rfl
    | cons c rest =>
      rw [containsSub, Bool.or_eq_false_iff] at hs
      obtain ⟨h1, h2⟩ := hs
      rw [replaceAllGo, if_neg (by simp [h1])]
      rw [ih rest h2]

/-- `replaceAll` leaves a string alone when the pattern does not occur. -/
theorem replaceAll_no_occurrence (s pat rep : List Char)
    (h : containsSub s pat = false) : replaceAll s pat rep = s :=
  replaceAllGo_no_occurrence pat rep s.length s h

/-- A concrete layer for exercising the template branch: template
`"{msg}"`, no tags, default placeholder. -/
def tplLayer : TelegramLayer :=
  { sender := TelegramSender.new (Bot.new []) []
    format := TelegramFormat.Template (String.toList "{msg}")
    tag := []
    unknown := String.toList "Unknown" }

/-- Concrete event metadata with a known line number. -/
def tplMeta : EventMeta :=
  { line := some 5
    file := some (String.toList "main.rs")
    module_path := some (String.toList "app")
    level := Level.ERROR }

/-- C5 counterexample: with format `Template "{msg}"` and the message
text `"{line}"`, the handler renders `"5"` — the `{line}` token brought
in by the message is substituted by a later replacement pass, so the
message is not inserted verbatim as the claim states. -/
theorem template_message_not_verbatim :
    on_event tplLayer (String.toList "{line}") tplMeta
        (String.toList "2024-01-01 00:00:00") =
      some (String.toList "5", none) ∧
    String.toList "5" ≠ String.toList "{line}" := by
  constructor
  · rfl
  · decide

/-- C5 amended: in Template mode the placeholders are substituted by
sequential global left-to-right replacement in the fixed order
`{emoji}`, `{time}`, `{msg}`, `{level}`, `{module}`, `{file}`, `{line}`;
the render-mode tag is none; a format string containing none of the
recognized tokens (in particular any unrecognized placeholder) is left
verbatim; but values inserted by earlier passes are subject to later
passes, so tokens among `{level}`, `{module}`, `{file}`, `{line}`
occurring in the message text are further substituted rather than kept
verbatim (witnessed by message `"{line}"` under template `"{msg}"`). -/
theorem template_render_amended :
    (∀ (s : TelegramSender) (tg : List (List Char)) (unk tpl out : List Char)
      (meta : EventMeta) (now : List Char),
      (formatEvent ⟨s, TelegramFormat.Template tpl, tg, unk⟩ out meta now).2 =
        none) ∧
    (∀ (tpl emoji now out lvl module file : List Char) (line : Nat),
      (∀ t ∈ templateTokens, containsSub tpl t = false) →
      renderTemplate tpl emoji now out lvl module file line = tpl) ∧
    (∀ (emoji now lvl module file : List Char),
      renderTemplate (String.toList "{msg}") emoji now
        (String.toList "{line}") lvl module file 5 = String.toList "5") := by
  refine ⟨?_, ?_, ?_⟩
  · intro s tg unk tpl out meta now
    rfl
  · intro tpl emoji now out lvl module file line h
    rw [renderTemplate]
    rw [replaceAll_no_occurrence _ _ _ (h _ (by simp [templateTokens]))]
    rw [replaceAll_no_occurrence _ _ _ (h _ (by simp [templateTokens]))]
    rw [replaceAll_no_occurrence _ _ _ (h _ (by simp [templateTokens]))]
    rw [replaceAll_no_occurrence _ _ _ (h _ (by simp [templateTokens]))]
    rw [replaceAll_no_occurrence _ _ _ (h _ (by simp [templateTokens]))]
    rw [replaceAll_no_occurrence _ _ _ (h _ (by simp [templateTokens]))]
    rw [replaceAll_no_occurrence _ _ _ (h _ (by simp [templateTokens]))]
  · intro emoji now lvl module file
    rfl

/-- C5 amended witness: a token-free template renders verbatim, and the
parse-mode tag of a template rendering is none. -/
theorem template_render_amended_witness :
    (∀ t ∈ templateTokens,
      containsSub (String.toList "hello world") t = false) ∧
    renderTemplate (String.toList "hello world") (String.toList "E")
        (String.toList "N") (String.toList "x") (String.toList "L")
        (String.toList "M") (String.toList "F") 3 =
      String.toList "hello world" :=
  ⟨by decide,
   template_render_amended.2.1 (String.toList "hello world")
     (String.toList "E") (String.toList "N") (String.toList "x")
     (String.toList "L") (String.toList "M") (String.toList "F") 3
     (by decide)⟩

/-! ## JSON mode (C6) -/

/-- Everything the JSON envelope places before the raw message. -/
def jsonPre (now emoji : List Char) : List Char :=
  String.toList "``` \x7b\"time\": \"" ++ now ++
    String.toList "\", \"emoji\": \"" ++ emoji ++
    String.toList "\", \"msg\": \""

/-- Everything the JSON envelope places after the raw message. -/
def jsonSuf (levelStr module file : List Char) (line : Nat) : List Char :=
  String.toList "\", \"level\": \"" ++ levelStr ++
    String.toList "\", \"module\": \"" ++ module ++
    String.toList "\", \"file\": \"" ++ file ++
    String.toList "\", \"line\": " ++ natChars line ++
    String.toList " \x7d ```"

/-- C6: in Json mode the rendered output is the single object-shaped
fenced string embedding timestamp, emoji, the raw message, level,
module, file and line; the message is spliced in with no JSON escaping
(the output decomposes as prefix ++ message ++ suffix with the message
characters exactly as in the input, whatever quotes or backslashes they
contain), and the render-mode tag is MarkdownV2. -/
theorem json_mode_raw_message (s : TelegramSender) (tg : List (List Char))
    (unk out : List Char) (meta : EventMeta) (now : List Char) :
    formatEvent ⟨s, TelegramFormat.Json, tg, unk⟩ out meta now =
      (jsonPre now ((LEVEL_EMOJIS meta.level).getD unk) ++ out ++
        jsonSuf meta.level.display (meta.module_path.getD unk)
          (replaceAll (meta.file.getD unk) (String.toList "\\")
            (String.toList "/"))
          (meta.line.getD 0),
        some ParseMode.MarkdownV2) ∧
    out <:+: (formatEvent ⟨s, TelegramFormat.Json, tg, unk⟩ out meta now).1 := by
  have hdec :
      formatEvent ⟨s, TelegramFormat.Json, tg, unk⟩ out meta now =
        (jsonPre now ((LEVEL_EMOJIS meta.level).getD unk) ++ out ++
          jsonSuf meta.level.display (meta.module_path.getD unk)
            (replaceAll (meta.file.getD unk) (String.toList "\\")
              (String.toList "/"))
            (meta.line.getD 0),
          some ParseMode.MarkdownV2) := by
    simp [formatEvent, jsonRender, jsonPre, jsonSuf, List.append_assoc]
  refine ⟨hdec, ?_⟩
  rw [hdec]
  exact ⟨jsonPre now ((LEVEL_EMOJIS meta.level).getD unk),
    jsonSuf meta.level.display (meta.module_path.getD unk)
      (replaceAll (meta.file.getD unk) (String.toList "\\")
        (String.toList "/"))
      (meta.line.getD 0),
    by simp [List.append_assoc]⟩

/-! ## Markdown mode (C10) -/

/-- Everything Markdown mode places before the escaped message. -/
def mdPre (emoji now module : List Char) (line : Nat) (file : List Char) :
    List Char :=
  String.toList "```\n" ++ emoji ++ String.toList " [" ++ now ++
    String.toList "] " ++ module ++ String.toList ":" ++ natChars line ++
    String.toList " " ++ file ++ String.toList " "

/-- Everything Markdown mode places after the escaped message. -/
def mdSuf (levelStr : List Char) : List Char :=
  String.toList " [" ++ levelStr ++ String.toList "]\n```"

/-- C10: in Markdown mode only the message body goes through
`escape_markdown_v2`; the rendered text decomposes as a prefix embedding
emoji, timestamp, module, line and the slash-normalized file path all
verbatim (unescaped), then the escaped message, then the level verbatim
— so reserved MarkdownV2 characters in those metadata fields appear
unescaped, and the render-mode tag is MarkdownV2. -/
theorem markdown_mode_escapes_only_message (s : TelegramSender)
    (tg : List (List Char)) (unk out : List Char) (meta : EventMeta)
    (now : List Char) :
    formatEvent ⟨s, TelegramFormat.Markdown, tg, unk⟩ out meta now =
      (mdPre ((LEVEL_EMOJIS meta.level).getD unk) now
          (meta.module_path.getD unk) (meta.line.getD 0)
          (replaceAll (meta.file.getD unk) (String.toList "\\")
            (String.toList "/")) ++
        escape_markdown_v2 out ++ mdSuf meta.level.display,
        some ParseMode.MarkdownV2) ∧
    now <:+:
      (formatEvent ⟨s, TelegramFormat.Markdown, tg, unk⟩ out meta now).1 ∧
    replaceAll (meta.file.getD unk) (String.toList "\\") (String.toList "/")
      <:+:
      (formatEvent ⟨s, TelegramFormat.Markdown, tg, unk⟩ out meta now).1 := by
  have hdec :
      formatEvent ⟨s, TelegramFormat.Markdown, tg, unk⟩ out meta now =
        (mdPre ((LEVEL_EMOJIS meta.level).getD unk) now
            (meta.module_path.getD unk) (meta.line.getD 0)
            (replaceAll (meta.file.getD unk) (String.toList "\\")
              (String.toList "/")) ++
          escape_markdown_v2 out ++ mdSuf meta.level.display,
          some ParseMode.MarkdownV2) := by
    simp [formatEvent, mdRender, mdPre, mdSuf, List.append_assoc]
  refine ⟨hdec, ?_, ?_⟩
  · rw [hdec]
    refine ⟨String.toList "```\n" ++ (LEVEL_EMOJIS meta.level).getD unk ++
      String.toList " [", ?_, ?_⟩
    · exact String.toList "] " ++ (meta.module_path.getD unk) ++
        String.toList ":" ++ natChars (meta.line.getD 0) ++
        String.toList " " ++
        replaceAll (meta.file.getD unk) (String.toList "\\")
          (String.toList "/") ++ String.toList " " ++
        escape_markdown_v2 out ++ mdSuf meta.level.display
    · simp [mdPre, List.append_assoc]
  · rw [hdec]
    refine ⟨String.toList "```\n" ++ (LEVEL_EMOJIS meta.level).getD unk ++
      String.toList " [" ++ now ++ String.toList "] " ++
      (meta.module_path.getD unk) ++ String.toList ":" ++
      natChars (meta.line.getD 0) ++ String.toList " ", ?_, ?_⟩
    · exact String.toList " " ++ escape_markdown_v2 out ++
        mdSuf meta.level.display
    · simp [mdPre, List.append_assoc]

end TracingTelegram
